import Mathlib

/-!
Shallow embedding of `system-app-check/app_health_checker.py`
(class `ApplicationHealthChecker` and `main`).

Modelling conventions:
* HTTP transport is abstracted by an oracle `transport : Nat → AttemptOutcome`
  giving, for each attempt index, either a received response (any status code,
  body text, measured response time, timestamp) or a transport failure
  (exception message, timestamp).  The three request branches of the Python
  code (GET / POST / other verb) differ only in which HTTP primitive is
  invoked, never in the shape of the outcome, so they are all represented by
  the oracle; `method`, `headers` and `data` are carried as parameters for
  fidelity but do not influence the modelled outcome.
* Python `None` and an absent dictionary key are both modelled as
  `Option.none` (both serialise to "absent" in the data contract).
* Machine side effects that the spec talks about (issuing a request,
  sleeping between retries) are recorded in an explicit event trace.
* `self.results` is threaded explicitly as a `List CheckResult`.
-/

/-- Outcome of one HTTP attempt, as observed by the checker. -/
inductive AttemptOutcome where
  | response (status_code : Nat) (body : String) (response_time_ms : ℚ) (timestamp : String)
  | failure (message : String) (timestamp : String)
deriving DecidableEq

/-- Observable side effects of the checker: issuing an HTTP request,
and sleeping for a number of seconds between retries. -/
inductive Event where
  | request
  | sleep (seconds : ℚ)
deriving DecidableEq

/-- The `content_analysis` sub-dictionary of a result (lines 109-112 of the source). -/
structure ContentAnalysis where
  has_critical_keywords : Bool
  has_success_keywords : Bool
deriving DecidableEq

/-- One entry of `self.results` (lines 102-113 / 128-136 of the source). -/
structure CheckResult where
  name : String
  url : String
  status : String
  status_code : Option Nat
  response_time_ms : Option ℚ
  timestamp : String
  content_analysis : Option ContentAnalysis
  error : Option String
deriving DecidableEq

/-- Configuration dictionary (lines 20-30 of the source).
`retry_attempts` is an `Int` because the Python value is an arbitrary
integer and the code never validates it. -/
structure Config where
  timeout : ℚ
  retry_attempts : Int
  retry_delay : ℚ
  expected_status_codes : List Nat
  critical_keywords : List String
  success_keywords : List String
  alert_email : Option String
  smtp_server : String
  smtp_port : Nat

/-- The `default_config` dictionary of `load_config` (lines 20-30). -/
def default_config : Config where
  timeout := 10
  retry_attempts := 3
  retry_delay := 2
  expected_status_codes := [200, 201, 202, 204]
  critical_keywords := ["error", "exception", "down", "maintenance"]
  success_keywords := ["success", "ok", "running", "healthy"]
  alert_email := none
  smtp_server := "localhost"
  smtp_port := 587

/-- Auxiliary: does `needle` occur as a contiguous run inside the character list? -/
def chars_contain_run (needle : List Char) : List Char → Bool
  | [] => decide (needle = [])
  | c :: cs => needle.isPrefixOf (c :: cs) || chars_contain_run needle cs

/-- Python's `keyword in content` substring test on strings. -/
def str_contains (content keyword : String) : Bool :=
  chars_contain_run keyword.toList content.toList

/-- Python's `str.lower()`, character by character (the configured keywords
are ASCII, for which `Char.toLower` agrees with Python's lowering). -/
def py_lower (s : String) : String :=
  String.mk (s.toList.map Char.toLower)

/-- The result dictionary built on a received response (lines 83-113):
status-code check, case-insensitive keyword scan of the lowered body,
classification, and the result record. -/
def classify_response (cfg : Config) (name url : String) (status_code : Nat)
    (body : String) (response_time : ℚ) (timestamp : String) : CheckResult :=
  let status_ok := cfg.expected_status_codes.contains status_code
  let content := py_lower body
  let has_critical_keyword := cfg.critical_keywords.any fun k => str_contains content k
  let has_success_keyword := cfg.success_keywords.any fun k => str_contains content k
  -- lines 91-100: both arms of the inner `if has_success_keyword` assign "UP"
  let status := if status_ok && !has_critical_keyword then
      (if has_success_keyword then "UP" else "UP")
    else "DOWN"
  { name := name
    url := url
    status := status
    status_code := some status_code
    response_time_ms := some response_time
    timestamp := timestamp
    content_analysis := some { has_critical_keywords := has_critical_keyword
                               has_success_keywords := has_success_keyword }
    error := none }

/-- The result dictionary built when the final attempt fails (lines 128-136);
`status_code` and `response_time_ms` are `None`, `content_analysis` is absent. -/
def failure_result (name url message timestamp : String) : CheckResult :=
  { name := name
    url := url
    status := "DOWN"
    status_code := none
    response_time_ms := none
    timestamp := timestamp
    content_analysis := none
    error := some message }

/-- The `for attempt in range(retry_attempts)` loop of `check_application`
(lines 51-140).  `attempt` is the current loop index, `fuel` the number of
iterations still to run (initially `retry_attempts.toNat`, the size of the
Python range).  Returns the value returned by the loop body (`none` when the
loop ends without returning, as Python then returns `None`) together with
the trace of requests issued and sleeps performed. -/
def check_loop (cfg : Config) (name url : String) (transport : Nat → AttemptOutcome) :
    Nat → Nat → Option CheckResult × List Event
  | _, 0 => (none, [])
  | attempt, fuel + 1 =>
    match transport attempt with
    | AttemptOutcome.response sc body rt ts =>
      (some (classify_response cfg name url sc body rt ts), [Event.request])
    | AttemptOutcome.failure msg ts =>
      if (attempt : Int) < cfg.retry_attempts - 1 then
        let rest := check_loop cfg name url transport (attempt + 1) fuel
        (rest.1, Event.request :: Event.sleep cfg.retry_delay :: rest.2)
      else
        (some (failure_result name url msg ts), [Event.request])

/-- Function `check_application` (lines 44-140).  The result (when the loop returns
one) is appended to `results`, mirroring the `self.results.append(result)`
performed just before each `return` in the source. -/
def check_application (cfg : Config) (transport : Nat → AttemptOutcome)
    (url : String) (name : Option String) (_method : String)
    (_headers : List (String × String)) (_data : Option String)
    (results : List CheckResult) :
    Option CheckResult × List CheckResult × List Event :=
  let nm := name.getD url
  let out := check_loop cfg nm url transport 0 cfg.retry_attempts.toNat
  match out.1 with
  | some r => (some r, results ++ [r], out.2)
  | none => (none, results, out.2)

/-- One target specification, the keyword dictionary passed to
`check_application` by `check_multiple_applications`. -/
structure AppSpec where
  url : String
  name : Option String := none
  method : String := "GET"
  headers : List (String × String) := []
  data : Option String := none

/-- The per-target loop of `check_multiple_applications` (lines 147-148):
checks each target in submission order, threading `self.results`; each
target comes with its own transport oracle.  Returns the final result
sequence.  The unconditional `self.generate_report()` call of line 151 is
modelled on top of this in `check_multiple_applications_report` below
(after `generate_report` is defined). -/
def check_multiple_applications (cfg : Config)
    (apps : List (AppSpec × (Nat → AttemptOutcome)))
    (results : List CheckResult) : List CheckResult :=
  match apps with
  | [] => results
  | (app, transport) :: rest =>
    let step := check_application cfg transport app.url app.name app.method
      app.headers app.data results
    check_multiple_applications cfg rest step.2.1

/-- Runtime error raised by `generate_report` when dividing by a zero total. -/
inductive PyError where
  | zeroDivision
deriving DecidableEq

/-- Average / min / max of the collected UP response times (lines 166-171). -/
structure TimeStats where
  avg : ℚ
  min : ℚ
  max : ℚ
deriving DecidableEq

/-- The values computed (and printed) by `generate_report`, plus its
return value `all_up` (line 180). -/
structure Report where
  total_checks : Nat
  up_checks : Nat
  down_checks : Nat
  success_rate : ℚ
  time_stats : Option TimeStats
  down_apps : List (String × String)
  all_up : Bool
deriving DecidableEq

/-- Python truthiness of the `response_time_ms` field: `None` and `0.0`
are falsy, every other float is truthy (line 166's `and r['response_time_ms']`). -/
def truthy_float : Option ℚ → Bool
  | none => false
  | some x => decide (x ≠ 0)

/-- The list comprehension of line 166: response times of results that are
UP and whose `response_time_ms` is truthy. -/
def up_times_of (results : List CheckResult) : List ℚ :=
  results.filterMap fun r =>
    if r.status == "UP" && truthy_float r.response_time_ms then r.response_time_ms else none

/-- Function `generate_report` (lines 153-180).  The division `up_checks/total_checks`
on line 163 raises `ZeroDivisionError` in Python when `total_checks = 0`;
that runtime error is made explicit as the `Except.error` branch. -/
def generate_report (results : List CheckResult) : Except PyError Report :=
  let total_checks := results.length
  let up_checks := (results.filter fun r => r.status == "UP").length
  let down_checks := total_checks - up_checks
  if total_checks = 0 then Except.error PyError.zeroDivision
  else
    let success_rate : ℚ := ((up_checks : ℚ) / (total_checks : ℚ)) * 100
    let up_times := up_times_of results
    let time_stats := match up_times with
      | [] => none
      | t :: ts => some { avg := up_times.sum / (up_times.length : ℚ)
                          min := List.foldl Min.min t ts
                          max := List.foldl Max.max t ts }
    let down_list := results.filter fun r => r.status == "DOWN"
    Except.ok
      { total_checks := total_checks
        up_checks := up_checks
        down_checks := down_checks
        success_rate := success_rate
        time_stats := time_stats
        down_apps := down_list.map fun r => (r.name, r.error.getD "Unknown error")
        all_up := up_checks == total_checks }

/-- Function `generate_report` with the object state threaded explicitly: the Python
method only reads `self.results` (it never reassigns or mutates the list),
so the state component is returned unchanged. -/
def generate_report_state (results : List CheckResult) :
    Except PyError Report × List CheckResult :=
  (generate_report results, results)

/-- Outcome of loading the target-list file in `main` (lines 232-241):
either a parsed list of target specifications (paired with their transport
oracles), or one of the two fatal load errors. -/
inductive TargetLoad where
  | ok (apps : List (AppSpec × (Nat → AttemptOutcome)))
  | fileNotFound
  | invalidJson

/-- Lines 142-151 complete: `check_multiple_applications` checks every
target and then unconditionally calls `self.generate_report()` (line 151).
The report's boolean return value is discarded by the Python code, but a
`ZeroDivisionError` raised inside it (empty result sequence) propagates to
the caller; both the final result sequence and that report outcome are
therefore returned. -/
def check_multiple_applications_report (cfg : Config)
    (apps : List (AppSpec × (Nat → AttemptOutcome)))
    (results : List CheckResult) : List CheckResult × Except PyError Report :=
  let final := check_multiple_applications cfg apps results
  (final, generate_report final)

/-- The exit-status logic of `main` (lines 232-268): on a load error the
process exits 1 before any check runs (result sequence empty).  Otherwise
all targets are checked and reported (line 252 calling lines 142-151); if
the report raised `ZeroDivisionError` (no result produced) the exception is
uncaught and the interpreter exits with status 1 before reaching line 268;
otherwise the exit status is 0 exactly when no result is DOWN (line 268).
Returns the exit code and the produced result sequence. -/
def main_run (cfg : Config) (load : TargetLoad) : Nat × List CheckResult :=
  match load with
  | TargetLoad.fileNotFound => (1, [])
  | TargetLoad.invalidJson => (1, [])
  | TargetLoad.ok apps =>
    let checked := check_multiple_applications_report cfg apps []
    match checked.2 with
    | Except.error _ => (1, checked.1)
    | Except.ok _ =>
      let down_apps := checked.1.filter fun r => r.status == "DOWN"
      (if down_apps.isEmpty then 0 else 1, checked.1)

/-- Trace of `k` failed-and-retried attempts: each issues a request and then
sleeps for the retry delay. -/
def retry_events (d : ℚ) : Nat → List Event
  | 0 => []
  | k + 1 => Event.request :: Event.sleep d :: retry_events d k

/-- Number of HTTP requests recorded in a trace. -/
def count_requests : List Event → Nat
  | [] => 0
  | Event.request :: es => count_requests es + 1
  | Event.sleep _ :: es => count_requests es

/-! ## Lemmas about the retry loop -/

/-- If the first `k` attempts fail and attempt `k` (still inside the range)
yields a response, the loop returns the classified result immediately after
that response, having issued `k + 1` requests with a sleep after each failed
one. -/
theorem check_loop_response (cfg : Config) (name url : String)
    (transport : Nat → AttemptOutcome) (sc : Nat) (body : String) (rt : ℚ) (ts : String)
    (k attempt fuel : Nat) (hk : k < fuel)
    (hinv : attempt + fuel = cfg.retry_attempts.toNat)
    (hfail : ∀ i, i < k → ∃ m t, transport (attempt + i) = AttemptOutcome.failure m t)
    (hresp : transport (attempt + k) = AttemptOutcome.response sc body rt ts) :
    check_loop cfg name url transport attempt fuel =
      (some (classify_response cfg name url sc body rt ts),
       retry_events cfg.retry_delay k ++ [Event.request]) := by
  induction k generalizing attempt fuel with
  | zero =>
    obtain ⟨f, rfl⟩ : ∃ f, fuel = f + 1 := ⟨fuel - 1, by omega⟩
    simp only [Nat.add_zero] at hresp
    simp [check_loop, hresp, retry_events]
  | succ k ih =>
    obtain ⟨f, rfl⟩ : ∃ f, fuel = f + 1 := ⟨fuel - 1, by omega⟩
    obtain ⟨m, t, hf0⟩ := hfail 0 (Nat.succ_pos k)
    simp only [Nat.add_zero] at hf0
    have hcond : (attempt : Int) < cfg.retry_attempts - 1 := by omega
    have hrec := ih (attempt + 1) f (by omega) (by omega)
      (fun i hi => by
        rw [show attempt + 1 + i = attempt + (i + 1) by omega]
        exact hfail (i + 1) (by omega))
      (by rw [show attempt + 1 + k = attempt + (k + 1) by omega]; exact hresp)
    simp [check_loop, hf0, hcond, hrec, retry_events]

/-- One unfolding step of the loop. -/
theorem check_loop_succ (cfg : Config) (name url : String)
    (transport : Nat → AttemptOutcome) (attempt fuel : Nat) :
    check_loop cfg name url transport attempt (fuel + 1) =
      match transport attempt with
      | AttemptOutcome.response sc body rt ts =>
        (some (classify_response cfg name url sc body rt ts), [Event.request])
      | AttemptOutcome.failure msg ts =>
        if (attempt : Int) < cfg.retry_attempts - 1 then
          ((check_loop cfg name url transport (attempt + 1) fuel).1,
           Event.request :: Event.sleep cfg.retry_delay ::
             (check_loop cfg name url transport (attempt + 1) fuel).2)
        else
          (some (failure_result name url msg ts), [Event.request]) := rfl

/-- If every attempt fails, the loop runs out its whole range, sleeping
between consecutive attempts, and returns the failure result built from the
last attempt's exception. -/
theorem check_loop_all_fail (cfg : Config) (name url : String)
    (transport : Nat → AttemptOutcome) (msgs tss : Nat → String)
    (hfail : ∀ i, transport i = AttemptOutcome.failure (msgs i) (tss i))
    (fuel attempt : Nat) (hfuel : 1 ≤ fuel)
    (hinv : attempt + fuel = cfg.retry_attempts.toNat) :
    check_loop cfg name url transport attempt fuel =
      (some (failure_result name url (msgs (cfg.retry_attempts.toNat - 1))
        (tss (cfg.retry_attempts.toNat - 1))),
       retry_events cfg.retry_delay (fuel - 1) ++ [Event.request]) := by
  induction fuel generalizing attempt with
  | zero => omega
  | succ f ih =>
    cases f with
    | zero =>
      have hattempt : attempt = cfg.retry_attempts.toNat - 1 := by omega
      subst hattempt
      have hcond : ¬ ((cfg.retry_attempts.toNat - 1 : Nat) : Int) <
          cfg.retry_attempts - 1 := by omega
      rw [check_loop_succ, hfail]
      dsimp only
      rw [if_neg hcond]
      simp [retry_events]
    | succ f2 =>
      have hcond : (attempt : Int) < cfg.retry_attempts - 1 := by omega
      have hrec := ih (attempt + 1) (by omega) (by omega)
      rw [check_loop_succ, hfail attempt]
      dsimp only
      rw [if_pos hcond, hrec]
      simp [retry_events]

/-- Every result the loop ever returns is either failure-shaped (`error`
present, `content_analysis` absent) or response-shaped (`content_analysis`
present, `error` absent). -/
theorem check_loop_shape (cfg : Config) (name url : String)
    (transport : Nat → AttemptOutcome) (attempt fuel : Nat) (r : CheckResult)
    (h : (check_loop cfg name url transport attempt fuel).1 = some r) :
    (r.error.isSome ∧ r.content_analysis = none) ∨
    (r.content_analysis.isSome ∧ r.error = none) := by
  induction fuel generalizing attempt with
  | zero => simp [check_loop] at h
  | succ f ih =>
    cases htr : transport attempt with
    | response sc body rt ts =>
      simp [check_loop, htr] at h
      subst h
      right
      simp [classify_response]
    | failure msg ts =>
      by_cases hcond : (attempt : Int) < cfg.retry_attempts - 1
      · simp [check_loop, htr, hcond] at h
        exact ih (attempt + 1) h
      · simp [check_loop, htr, hcond] at h
        subst h
        left
        simp [failure_result]

/-- Within the range (loop invariant of `check_application`), the loop
always returns a result: the checker never falls off the end of the loop. -/
theorem check_loop_isSome (cfg : Config) (name url : String)
    (transport : Nat → AttemptOutcome) (fuel attempt : Nat) (hfuel : 1 ≤ fuel)
    (hinv : attempt + fuel = cfg.retry_attempts.toNat) :
    ((check_loop cfg name url transport attempt fuel).1).isSome := by
  induction fuel generalizing attempt with
  | zero => omega
  | succ f ih =>
    cases htr : transport attempt with
    | response sc body rt ts => simp [check_loop, htr]
    | failure msg ts =>
      by_cases hcond : (attempt : Int) < cfg.retry_attempts - 1
      · have hf : 1 ≤ f := by omega
        simpa [check_loop, htr, hcond] using ih (attempt + 1) hf (by omega)
      · simp [check_loop, htr, hcond]

/-- Unfolding `check_application` in terms of the loop: the result is appended to the
result sequence exactly when the loop returns one. -/
theorem check_application_eq (cfg : Config) (transport : Nat → AttemptOutcome)
    (url : String) (name : Option String) (m : String)
    (hs : List (String × String)) (d : Option String) (results : List CheckResult)
    (r : Option CheckResult) (evs : List Event)
    (h : check_loop cfg (name.getD url) url transport 0 cfg.retry_attempts.toNat = (r, evs)) :
    check_application cfg transport url name m hs d results =
      (r, results ++ r.toList, evs) := by
  cases r <;> simp [check_application, h]

/-- With at least one configured attempt, `check_application` always
produces a result. -/
theorem check_application_isSome (cfg : Config) (hra : 1 ≤ cfg.retry_attempts)
    (transport : Nat → AttemptOutcome) (url : String) (name : Option String)
    (m : String) (hs : List (String × String)) (d : Option String)
    (results : List CheckResult) :
    ((check_application cfg transport url name m hs d results).1).isSome := by
  have h := check_loop_isSome cfg (name.getD url) url transport
    cfg.retry_attempts.toNat 0 (by omega) (by omega)
  rcases hout : check_loop cfg (name.getD url) url transport 0 cfg.retry_attempts.toNat
    with ⟨o, evs⟩
  rw [hout] at h
  rw [check_application_eq cfg transport url name m hs d results o evs hout]
  exact h

/-- Requests recorded in a failed-retries trace: one per retried attempt
plus the final one. -/
theorem count_requests_retry_events (d : ℚ) (k : Nat) :
    count_requests (retry_events d k ++ [Event.request]) = k + 1 := by
  induction k with
  | zero => rfl
  | succ k ih => simp [retry_events, count_requests, ih]

/-- The classification computed on a response, isolated: UP exactly when the
status code is expected and no critical keyword occurs in the lowered body.
The `success_keywords` scan plays no role. -/
theorem classify_response_status (cfg : Config) (name url : String) (sc : Nat)
    (body : String) (rt : ℚ) (ts : String) :
    (classify_response cfg name url sc body rt ts).status =
      if (cfg.expected_status_codes.contains sc &&
          !(cfg.critical_keywords.any fun kw => str_contains (py_lower body) kw)) then "UP"
      else "DOWN" := by
  simp [classify_response]

/-! ## The claims -/

/-- C1: whenever an attempt completes with a response (any status code,
here after `k` failed attempts within range), the check classifies UP iff
the status code is expected and no critical keyword occurs in the lowered
body; the success-keyword scan never changes the verdict, and the result is
built, appended and returned immediately — the trace shows no further
attempt after the response. -/
theorem c1_response_classification (cfg : Config) (transport : Nat → AttemptOutcome)
    (k : Nat) (hk : (k : Int) < cfg.retry_attempts)
    (hfail : ∀ i, i < k → ∃ m t, transport i = AttemptOutcome.failure m t)
    (sc : Nat) (body : String) (rt : ℚ) (ts : String)
    (hresp : transport k = AttemptOutcome.response sc body rt ts)
    (url : String) (name : Option String) (method : String)
    (headers : List (String × String)) (data : Option String)
    (results : List CheckResult) :
    ∃ r, check_application cfg transport url name method headers data results =
        (some r, results ++ [r], retry_events cfg.retry_delay k ++ [Event.request]) ∧
      r = classify_response cfg (name.getD url) url sc body rt ts ∧
      (r.status = "UP" ↔
        (cfg.expected_status_codes.contains sc = true ∧
         (cfg.critical_keywords.any fun kw => str_contains (py_lower body) kw) = false)) ∧
      (r.status = "UP" ∨ r.status = "DOWN") ∧
      ∀ sk : List String,
        Option.map CheckResult.status
          (check_application { cfg with success_keywords := sk } transport url name method
            headers data results).1 = some r.status := by
  have hloop := check_loop_response cfg (name.getD url) url transport sc body rt ts k 0
    cfg.retry_attempts.toNat (by omega) (by omega)
    (by simpa using hfail) (by simpa using hresp)
  have happ := check_application_eq cfg transport url name method headers data results _ _ hloop
  have hstat := classify_response_status cfg (name.getD url) url sc body rt ts
  refine ⟨_, by simpa using happ, rfl, ?_, ?_, ?_⟩
  · rw [hstat]
    by_cases h1 : cfg.expected_status_codes.contains sc = true <;>
      by_cases h2 : (cfg.critical_keywords.any fun kw => str_contains (py_lower body) kw) = true <;>
      simp [h1, h2]
  · rw [hstat]
    split
    · left; rfl
    · right; rfl
  · intro sk
    have hloop' := check_loop_response { cfg with success_keywords := sk } (name.getD url) url
      transport sc body rt ts k 0 cfg.retry_attempts.toNat (by simp; omega) (by simp)
      (by simpa using hfail) (by simpa using hresp)
    have happ' := check_application_eq { cfg with success_keywords := sk } transport url name
      method headers data results _ _ hloop'
    rw [happ']
    simp [classify_response_status]

/-- C1 witness: status 200 with body "Database error occurred" is classified
DOWN (critical keyword) and returned on the first attempt. -/
theorem c1_witness :
    ((0 : Nat) : Int) < default_config.retry_attempts ∧
    ∃ r, check_application default_config
        (fun _ => AttemptOutcome.response 200 "Database error occurred" 12 "t0")
        "http://x" none "GET" [] none [] =
        (some r, [] ++ [r], retry_events default_config.retry_delay 0 ++ [Event.request]) ∧
      r = classify_response default_config "http://x" "http://x" 200
            "Database error occurred" 12 "t0" ∧
      (r.status = "UP" ↔
        (default_config.expected_status_codes.contains 200 = true ∧
         (default_config.critical_keywords.any fun kw =>
           str_contains (py_lower "Database error occurred") kw) = false)) ∧
      (r.status = "UP" ∨ r.status = "DOWN") ∧
      ∀ sk : List String,
        Option.map CheckResult.status
          (check_application { default_config with success_keywords := sk }
            (fun _ => AttemptOutcome.response 200 "Database error occurred" 12 "t0")
            "http://x" none "GET" [] none []).1 = some r.status :=
  ⟨by decide,
   c1_response_classification default_config
     (fun _ => AttemptOutcome.response 200 "Database error occurred" 12 "t0")
     0 (by decide) (fun i hi => absurd hi (Nat.not_lt_zero i))
     200 "Database error occurred" 12 "t0" rfl "http://x" none "GET" [] none []⟩

/-- C2: when every attempt fails at transport, the check makes exactly
`retryAttempts` requests, sleeping `retryDelay` between consecutive ones,
never raises (it returns a value), and yields a DOWN result whose `error`
holds the last failure description while `statusCode`, `responseTimeMs` and
`contentAnalysis` are absent. -/
theorem c2_transport_failure_retries (cfg : Config) (hra : 1 ≤ cfg.retry_attempts)
    (transport : Nat → AttemptOutcome) (msgs tss : Nat → String)
    (hfail : ∀ i, transport i = AttemptOutcome.failure (msgs i) (tss i))
    (url : String) (name : Option String) (method : String)
    (headers : List (String × String)) (data : Option String)
    (results : List CheckResult) :
    ∃ r trace,
      check_application cfg transport url name method headers data results =
        (some r, results ++ [r], trace) ∧
      trace = retry_events cfg.retry_delay (cfg.retry_attempts.toNat - 1) ++ [Event.request] ∧
      count_requests trace = cfg.retry_attempts.toNat ∧
      r = failure_result (name.getD url) url (msgs (cfg.retry_attempts.toNat - 1))
            (tss (cfg.retry_attempts.toNat - 1)) ∧
      r.status = "DOWN" ∧ r.error = some (msgs (cfg.retry_attempts.toNat - 1)) ∧
      r.status_code = none ∧ r.response_time_ms = none ∧ r.content_analysis = none := by
  have hloop := check_loop_all_fail cfg (name.getD url) url transport msgs tss hfail
    cfg.retry_attempts.toNat 0 (by omega) (by omega)
  have happ := check_application_eq cfg transport url name method headers data results _ _ hloop
  refine ⟨_, _, by simpa using happ, rfl, ?_, rfl, rfl, rfl, rfl, rfl, rfl⟩
  rw [count_requests_retry_events]
  omega

/-- C2 witness: with the default three attempts and a transport that always
times out, exactly three requests are made with two sleeps in between. -/
theorem c2_witness :
    1 ≤ default_config.retry_attempts ∧
    ∃ r trace,
      check_application default_config (fun _ => AttemptOutcome.failure "timeout" "t0")
        "http://x" none "GET" [] none [] = (some r, [] ++ [r], trace) ∧
      trace = retry_events default_config.retry_delay
        (default_config.retry_attempts.toNat - 1) ++ [Event.request] ∧
      count_requests trace = default_config.retry_attempts.toNat ∧
      r = failure_result "http://x" "http://x" "timeout" "t0" ∧
      r.status = "DOWN" ∧ r.error = some "timeout" ∧
      r.status_code = none ∧ r.response_time_ms = none ∧ r.content_analysis = none :=
  ⟨by decide,
   c2_transport_failure_retries default_config (by decide)
     (fun _ => AttemptOutcome.failure "timeout" "t0") (fun _ => "timeout") (fun _ => "t0")
     (fun _ => rfl) "http://x" none "GET" [] none []⟩

/-- C4: a produced result carries exactly one of `error` and
`contentAnalysis`: transport failures carry `error` and no content
analysis, received responses carry a content analysis and no error. -/
theorem c4_error_xor_content_analysis (cfg : Config) (transport : Nat → AttemptOutcome)
    (url : String) (name : Option String) (method : String)
    (headers : List (String × String)) (data : Option String)
    (results : List CheckResult) (r : CheckResult)
    (hr : (check_application cfg transport url name method headers data results).1 = some r) :
    (r.error.isSome ∧ r.content_analysis = none) ∨
    (r.content_analysis.isSome ∧ r.error = none) := by
  rw [check_application_eq cfg transport url name method headers data results
    (check_loop cfg (name.getD url) url transport 0 cfg.retry_attempts.toNat).1
    (check_loop cfg (name.getD url) url transport 0 cfg.retry_attempts.toNat).2 rfl] at hr
  exact check_loop_shape cfg (name.getD url) url transport 0 cfg.retry_attempts.toNat r
    (by simpa using hr)

/-- C4 witness: a received response yields a result with `contentAnalysis`
present and `error` absent. -/
theorem c4_witness :
    (check_application default_config (fun _ => AttemptOutcome.response 200 "fine" 5 "t0")
        "http://x" none "GET" [] none []).1 =
      some (classify_response default_config "http://x" "http://x" 200 "fine" 5 "t0") ∧
    (((classify_response default_config "http://x" "http://x" 200 "fine" 5 "t0").error.isSome ∧
        (classify_response default_config "http://x" "http://x" 200 "fine" 5 "t0").content_analysis = none) ∨
      ((classify_response default_config "http://x" "http://x" 200 "fine" 5 "t0").content_analysis.isSome ∧
        (classify_response default_config "http://x" "http://x" 200 "fine" 5 "t0").error = none)) :=
  ⟨by decide,
   c4_error_xor_content_analysis default_config
     (fun _ => AttemptOutcome.response 200 "fine" 5 "t0") "http://x" none "GET" [] none []
     (classify_response default_config "http://x" "http://x" 200 "fine" 5 "t0") (by decide)⟩

/-- C10: with `retry_attempts` zero or negative the Python range is empty:
no request is issued (empty trace), nothing is appended to the result
sequence, and the function returns `None`. -/
theorem c10_nonpositive_retries_no_result (cfg : Config)
    (hra : cfg.retry_attempts ≤ 0) (transport : Nat → AttemptOutcome)
    (url : String) (name : Option String) (method : String)
    (headers : List (String × String)) (data : Option String)
    (results : List CheckResult) :
    check_application cfg transport url name method headers data results =
      (none, results, []) := by
  have h0 : cfg.retry_attempts.toNat = 0 := by omega
  have happ := check_application_eq cfg transport url name method headers data results none []
    (by rw [h0]; rfl)
  simpa using happ

/-- C10 witness: with `retry_attempts = 0` even a transport that would
respond immediately is never consulted. -/
theorem c10_witness :
    ({ default_config with retry_attempts := 0 } : Config).retry_attempts ≤ 0 ∧
    check_application { default_config with retry_attempts := 0 }
      (fun _ => AttemptOutcome.response 200 "ok" 5 "t0") "http://x" none "GET" [] none [] =
      (none, [], []) :=
  ⟨by decide,
   c10_nonpositive_retries_no_result { default_config with retry_attempts := 0 } (by decide)
     (fun _ => AttemptOutcome.response 200 "ok" 5 "t0") "http://x" none "GET" [] none []⟩

/-- One step of `check_multiple_applications`: the head target's result (when
produced) is appended before the remaining targets are checked. -/
theorem check_multiple_cons (cfg : Config) (app : AppSpec)
    (transport : Nat → AttemptOutcome) (rest : List (AppSpec × (Nat → AttemptOutcome)))
    (init : List CheckResult) :
    check_multiple_applications cfg ((app, transport) :: rest) init =
      check_multiple_applications cfg rest
        (init ++ ((check_application cfg transport app.url app.name app.method
          app.headers app.data []).1).toList) := by
  simp only [check_multiple_applications]
  rw [check_application_eq cfg transport app.url app.name app.method app.headers app.data
      init _ _ rfl,
    check_application_eq cfg transport app.url app.name app.method app.headers app.data
      [] _ _ rfl]

/-- C3: with at least one configured attempt, the multi-target check appends
exactly one result per submitted target, in submission order: the final
sequence is the initial one followed by each target's (unique) result. -/
theorem c3_one_result_per_target_in_order (cfg : Config) (hra : 1 ≤ cfg.retry_attempts)
    (apps : List (AppSpec × (Nat → AttemptOutcome))) (init : List CheckResult) :
    check_multiple_applications cfg apps init =
      init ++ apps.filterMap (fun p =>
        (check_application cfg p.2 p.1.url p.1.name p.1.method p.1.headers p.1.data []).1) ∧
    (apps.filterMap (fun p =>
        (check_application cfg p.2 p.1.url p.1.name p.1.method p.1.headers p.1.data []).1)).length
      = apps.length := by
  constructor
  · induction apps generalizing init with
    | nil => simp [check_multiple_applications]
    | cons p rest ih =>
      obtain ⟨app, transport⟩ := p
      rw [check_multiple_cons, ih]
      cases ho : (check_application cfg transport app.url app.name app.method
          app.headers app.data []).1 with
      | some r => simp [List.filterMap_cons, ho]
      | none => simp [List.filterMap_cons, ho]
  · induction apps with
    | nil => simp
    | cons p rest ih =>
      obtain ⟨app, transport⟩ := p
      have hs := check_application_isSome cfg hra transport app.url app.name app.method
        app.headers app.data []
      cases ho : (check_application cfg transport app.url app.name app.method
          app.headers app.data []).1 with
      | some r => simp [List.filterMap_cons, ho, ih]
      | none => rw [ho] at hs; simp at hs

/-- Example target list for the C3 witness: one responsive target, one that
always fails at transport. -/
def c3_example_apps : List (AppSpec × (Nat → AttemptOutcome)) :=
  [({ url := "http://a" }, fun _ => AttemptOutcome.response 200 "fine" 5 "t1"),
   ({ url := "http://b" }, fun _ => AttemptOutcome.failure "timeout" "t2")]

/-- C3 witness: two submitted targets produce exactly two results, in order. -/
theorem c3_witness :
    1 ≤ default_config.retry_attempts ∧
    (check_multiple_applications default_config c3_example_apps [] =
      [] ++ c3_example_apps.filterMap (fun p =>
        (check_application default_config p.2 p.1.url p.1.name p.1.method p.1.headers
          p.1.data []).1) ∧
    (c3_example_apps.filterMap (fun p =>
        (check_application default_config p.2 p.1.url p.1.name p.1.method p.1.headers
          p.1.data []).1)).length = c3_example_apps.length) :=
  ⟨by decide,
   c3_one_result_per_target_in_order default_config (by decide) c3_example_apps []⟩

/-- Evaluating `generate_report` on a non-empty sequence. -/
theorem generate_report_pos (results : List CheckResult) (h0 : results.length ≠ 0) :
    generate_report results = Except.ok
      { total_checks := results.length
        up_checks := (results.filter fun r => r.status == "UP").length
        down_checks := results.length - (results.filter fun r => r.status == "UP").length
        success_rate := (((results.filter fun r => r.status == "UP").length : ℚ) /
          (results.length : ℚ)) * 100
        time_stats := match up_times_of results with
          | [] => none
          | t :: ts => some { avg := (up_times_of results).sum / ((up_times_of results).length : ℚ)
                              min := List.foldl Min.min t ts
                              max := List.foldl Max.max t ts }
        down_apps := (results.filter fun r => r.status == "DOWN").map
          fun r => (r.name, r.error.getD "Unknown error")
        all_up := (results.filter fun r => r.status == "UP").length == results.length } := by
  simp only [generate_report]
  rw [if_neg h0]

/-- C5: on a non-empty result sequence the report has `total` the sequence
length, `up` the number of UP results, `down = total - up`,
`successRate = up/total * 100`, and `allUp` true exactly when `up = total`. -/
theorem c5_report_summary (results : List CheckResult) (hne : results ≠ []) :
    ∃ rep, generate_report results = Except.ok rep ∧
      rep.total_checks = results.length ∧
      rep.up_checks = results.countP (fun r => r.status == "UP") ∧
      rep.down_checks = rep.total_checks - rep.up_checks ∧
      rep.success_rate = ((rep.up_checks : ℚ) / (rep.total_checks : ℚ)) * 100 ∧
      (rep.all_up = true ↔ rep.up_checks = rep.total_checks) := by
  have h0 : results.length ≠ 0 := by simpa using hne
  refine ⟨_, generate_report_pos results h0, rfl, ?_, rfl, rfl, ?_⟩
  · exact (List.countP_eq_length_filter _ _).symm
  · simp

/-- Example result sequence for the C5 witness: 2 UP out of 3 results, so
`successRate = 200/3`, whose one-decimal rendering is 66.7. -/
def c5_example_results : List CheckResult :=
  [classify_response default_config "a" "a" 200 "fine" 10 "t1",
   classify_response default_config "b" "b" 200 "fine" 20 "t2",
   failure_result "c" "c" "timeout" "t3"]

/-- C5 witness: the 2-UP-of-3 example, with the success rate evaluating to
`200/3` and rounding (at one decimal place) to 66.7. -/
theorem c5_witness :
    c5_example_results ≠ [] ∧
    (∃ rep, generate_report c5_example_results = Except.ok rep ∧
      rep.total_checks = c5_example_results.length ∧
      rep.up_checks = c5_example_results.countP (fun r => r.status == "UP") ∧
      rep.down_checks = rep.total_checks - rep.up_checks ∧
      rep.success_rate = ((rep.up_checks : ℚ) / (rep.total_checks : ℚ)) * 100 ∧
      (rep.all_up = true ↔ rep.up_checks = rep.total_checks)) ∧
    ((2 : ℚ) / 3) * 100 = 200 / 3 ∧ round ((200 : ℚ) / 3 * 10) = 667 :=
  ⟨by decide, c5_report_summary c5_example_results (by decide),
   by norm_num, by norm_num [round_eq]⟩

/-- C7: the success-rate division has no zero guard: on the empty sequence
`generate_report` fails with the division-by-zero error, and on every
non-empty sequence the division is safe and a report is returned. -/
theorem c7_division_by_zero_guard :
    generate_report [] = Except.error PyError.zeroDivision ∧
    ∀ results : List CheckResult, results ≠ [] →
      ∃ rep, generate_report results = Except.ok rep := by
  constructor
  · rfl
  · intro results hne
    exact ⟨_, generate_report_pos results (by simpa using hne)⟩

/-- C7 witness: a singleton sequence is reported without error. -/
theorem c7_witness :
    ([failure_result "n" "u" "boom" "t"] : List CheckResult) ≠ [] ∧
    ∃ rep, generate_report [failure_result "n" "u" "boom" "t"] = Except.ok rep :=
  ⟨by decide, c7_division_by_zero_guard.2 [failure_result "n" "u" "boom" "t"] (by decide)⟩

/-- C9: report generation reads the result sequence without modifying it,
and running it twice on the same sequence yields identical report values. -/
theorem c9_report_pure_idempotent (results : List CheckResult) :
    (generate_report_state results).2 = results ∧
    (generate_report_state ((generate_report_state results).2)).1 =
      (generate_report_state results).1 :=
  ⟨rfl, rfl⟩

/-- Folding `min` over a list yields one of its elements. -/
theorem foldl_min_mem (t : ℚ) (ts : List ℚ) : List.foldl Min.min t ts ∈ t :: ts := by
  induction ts generalizing t with
  | nil => simp
  | cons c cs ih =>
    have h := ih (min t c)
    simp only [List.foldl_cons]
    rcases List.mem_cons.mp h with h1 | h1
    · rcases min_choice t c with hm | hm
      · rw [h1, hm]; exact List.mem_cons_self _ _
      · rw [h1, hm]; exact List.mem_cons_of_mem _ (List.mem_cons_self _ _)
    · exact List.mem_cons_of_mem _ (List.mem_cons_of_mem _ h1)

/-- Folding `min` over a list bounds every element from below. -/
theorem foldl_min_le (t : ℚ) (ts : List ℚ) : ∀ x ∈ t :: ts, List.foldl Min.min t ts ≤ x := by
  induction ts generalizing t with
  | nil => intro x hx; simp at hx; simp [hx]
  | cons c cs ih =>
    intro x hx
    simp only [List.foldl_cons]
    rcases List.mem_cons.mp hx with h1 | h1
    · rw [h1]
      exact le_trans (ih (min t c) _ (List.mem_cons_self _ _)) (min_le_left t c)
    · rcases List.mem_cons.mp h1 with h2 | h2
      · rw [h2]
        exact le_trans (ih (min t c) _ (List.mem_cons_self _ _)) (min_le_right t c)
      · exact ih (min t c) x (List.mem_cons_of_mem _ h2)

/-- Folding `max` over a list yields one of its elements. -/
theorem foldl_max_mem (t : ℚ) (ts : List ℚ) : List.foldl Max.max t ts ∈ t :: ts := by
  induction ts generalizing t with
  | nil => simp
  | cons c cs ih =>
    have h := ih (max t c)
    simp only [List.foldl_cons]
    rcases List.mem_cons.mp h with h1 | h1
    · rcases max_choice t c with hm | hm
      · rw [h1, hm]; exact List.mem_cons_self _ _
      · rw [h1, hm]; exact List.mem_cons_of_mem _ (List.mem_cons_self _ _)
    · exact List.mem_cons_of_mem _ (List.mem_cons_of_mem _ h1)

/-- Folding `max` over a list bounds every element from above. -/
theorem foldl_max_ge (t : ℚ) (ts : List ℚ) : ∀ x ∈ t :: ts, x ≤ List.foldl Max.max t ts := by
  induction ts generalizing t with
  | nil => intro x hx; simp at hx; simp [hx]
  | cons c cs ih =>
    intro x hx
    simp only [List.foldl_cons]
    rcases List.mem_cons.mp hx with h1 | h1
    · rw [h1]
      exact le_trans (le_max_left t c) (ih (max t c) _ (List.mem_cons_self _ _))
    · rcases List.mem_cons.mp h1 with h2 | h2
      · rw [h2]
        exact le_trans (le_max_right t c) (ih (max t c) _ (List.mem_cons_self _ _))
      · exact ih (max t c) x (List.mem_cons_of_mem _ h2)

/-- C8 counterexample: the checker can produce an UP result whose
`response_time_ms` is present but `0`; line 166 filters by Python
truthiness, so the report of that single result has no time statistics even
though the set of UP results with a present `responseTimeMs` is non-empty —
the claim's "present" does not match the code's "truthy". -/
theorem c8_counterexample :
    (check_application default_config (fun _ => AttemptOutcome.response 200 "fine" 0 "t0")
        "http://x" none "GET" [] none []).1 =
      some (classify_response default_config "http://x" "http://x" 200 "fine" 0 "t0") ∧
    (classify_response default_config "http://x" "http://x" 200 "fine" 0 "t0").status = "UP" ∧
    (classify_response default_config "http://x" "http://x" 200 "fine" 0 "t0").response_time_ms
      = some 0 ∧
    ([classify_response default_config "http://x" "http://x" 200 "fine" 0 "t0"].filter
      fun x => x.status == "UP" && x.response_time_ms.isSome) ≠ [] ∧
    ∃ rep,
      generate_report [classify_response default_config "http://x" "http://x" 200 "fine" 0 "t0"]
        = Except.ok rep ∧ rep.time_stats = none := by
  refine ⟨by decide, by decide, by decide, by decide, ?_⟩
  exact ⟨_, generate_report_pos _ (by decide), by decide⟩

/-- C8 amended: the response-time statistics are computed over exactly the
results that are UP with a present and non-zero (truthy) `responseTimeMs`,
and are skipped exactly when that set is empty; on a non-empty such set the
average is the sum divided by the count, and min/max are attained bounds. -/
theorem c8_amended_time_stats (results : List CheckResult) (hne : results ≠ []) :
    ∃ rep, generate_report results = Except.ok rep ∧
      (rep.time_stats = none ↔ up_times_of results = []) ∧
      (∀ st, rep.time_stats = some st →
        st.avg = (up_times_of results).sum / ((up_times_of results).length : ℚ) ∧
        st.min ∈ up_times_of results ∧ (∀ x ∈ up_times_of results, st.min ≤ x) ∧
        st.max ∈ up_times_of results ∧ (∀ x ∈ up_times_of results, x ≤ st.max)) ∧
      up_times_of results = results.filterMap (fun r =>
        if r.status == "UP" && truthy_float r.response_time_ms then r.response_time_ms
        else none) := by
  refine ⟨_, generate_report_pos results (by simpa using hne), ?_, ?_, rfl⟩
  · cases h : up_times_of results with
    | nil => simp [h]
    | cons t ts => simp [h]
  · intro st hst
    cases h : up_times_of results with
    | nil =>
      rw [h] at hst
      simp at hst
    | cons t ts =>
      rw [h] at hst
      dsimp only at hst
      have hst' := Option.some.inj hst
      subst hst'
      exact ⟨rfl, foldl_min_mem t ts, foldl_min_le t ts, foldl_max_mem t ts,
        foldl_max_ge t ts⟩

/-- Example result sequence for the C8 witness: two UP results with
non-zero response times and one transport failure. -/
def c8_example_results : List CheckResult :=
  [classify_response default_config "a" "a" 200 "fine" 10 "t1",
   classify_response default_config "b" "b" 200 "fine" 20 "t2",
   failure_result "c" "c" "timeout" "t3"]

/-- C8 witness: the amended statement at a sequence whose truthy-UP set is
the two response times 10 and 20. -/
theorem c8_witness :
    c8_example_results ≠ [] ∧
    ∃ rep, generate_report c8_example_results = Except.ok rep ∧
      (rep.time_stats = none ↔ up_times_of c8_example_results = []) ∧
      (∀ st, rep.time_stats = some st →
        st.avg = (up_times_of c8_example_results).sum /
          ((up_times_of c8_example_results).length : ℚ) ∧
        st.min ∈ up_times_of c8_example_results ∧
        (∀ x ∈ up_times_of c8_example_results, st.min ≤ x) ∧
        st.max ∈ up_times_of c8_example_results ∧
        (∀ x ∈ up_times_of c8_example_results, x ≤ st.max)) ∧
      up_times_of c8_example_results = c8_example_results.filterMap (fun r =>
        if r.status == "UP" && truthy_float r.response_time_ms then r.response_time_ms
        else none) :=
  ⟨by decide, c8_amended_time_stats c8_example_results (by decide)⟩

/-- C6 counterexample: a valid but empty target list (a file holding the
JSON text for an empty array passes both load branches) produces no result,
so every produced result is vacuously UP, yet line 151's report call raises
`ZeroDivisionError`, the exception is uncaught, and the process exits 1 —
not 0 as the claim states. -/
theorem c6_counterexample :
    (∀ r ∈ (main_run default_config (TargetLoad.ok [])).2, r.status = "UP") ∧
    (main_run default_config (TargetLoad.ok [])).1 = 1 :=
  ⟨by decide, by decide⟩

/-- C6 amended: loading failures of the target-list file exit with status 1
before any check runs (no result is produced); otherwise, when at least one
result was produced and all of them are UP the process exits 0, when at
least one result is DOWN it exits 1, and when no result was produced it
also exits 1 (the uncaught `ZeroDivisionError` of the unguarded report). -/
theorem c6_exit_status (cfg : Config) (apps : List (AppSpec × (Nat → AttemptOutcome))) :
    (main_run cfg TargetLoad.fileNotFound = (1, []) ∧
     main_run cfg TargetLoad.invalidJson = (1, [])) ∧
    ((main_run cfg (TargetLoad.ok apps)).2 ≠ [] →
      (∀ r ∈ (main_run cfg (TargetLoad.ok apps)).2, r.status = "UP") →
      (main_run cfg (TargetLoad.ok apps)).1 = 0) ∧
    ((∃ r ∈ (main_run cfg (TargetLoad.ok apps)).2, r.status = "DOWN") →
      (main_run cfg (TargetLoad.ok apps)).1 = 1) ∧
    ((main_run cfg (TargetLoad.ok apps)).2 = [] →
      (main_run cfg (TargetLoad.ok apps)).1 = 1) := by
  have hR : (main_run cfg (TargetLoad.ok apps)).2 =
      check_multiple_applications cfg apps [] := by
    simp only [main_run, check_multiple_applications_report]
    cases generate_report (check_multiple_applications cfg apps []) <;> rfl
  refine ⟨⟨rfl, rfl⟩, ?_, ?_, ?_⟩
  · intro hne hall
    rw [hR] at hne hall
    have hrep := generate_report_pos (check_multiple_applications cfg apps [])
      (by simpa using hne)
    have hnil : ((check_multiple_applications cfg apps []).filter
        fun r => r.status == "DOWN") = [] := by
      rw [List.filter_eq_nil_iff]
      intro r hr
      have hup := hall r hr
      simp [hup]
    simp only [main_run, check_multiple_applications_report, hrep]
    simp [hnil]
  · intro hex
    rw [hR] at hex
    obtain ⟨r, hr, hdown⟩ := hex
    have hne : check_multiple_applications cfg apps [] ≠ [] := by
      intro h
      rw [h] at hr
      simp at hr
    have hrep := generate_report_pos (check_multiple_applications cfg apps [])
      (by simpa using hne)
    have hfne : ((check_multiple_applications cfg apps []).filter
        fun r => r.status == "DOWN") ≠ [] := by
      intro hnil
      have := List.filter_eq_nil_iff.mp hnil r hr
      simp [hdown] at this
    simp only [main_run, check_multiple_applications_report, hrep]
    simp [List.isEmpty_iff, hfne]
  · intro hempty
    rw [hR] at hempty
    simp only [main_run, check_multiple_applications_report, hempty]
    rfl

/-- C6 witness: a responsive target exits 0, a failing target exits 1, and
an empty target list exits 1 through the report crash. -/
theorem c6_witness :
    (main_run default_config (TargetLoad.ok
      [({ url := "http://x" }, fun _ => AttemptOutcome.response 200 "fine" 5 "t")])).1 = 0 ∧
    (main_run default_config (TargetLoad.ok
      [({ url := "http://y" }, fun _ => AttemptOutcome.failure "timeout" "t")])).1 = 1 ∧
    (main_run default_config (TargetLoad.ok [])).1 = 1 :=
  ⟨(c6_exit_status default_config
      [({ url := "http://x" }, fun _ => AttemptOutcome.response 200 "fine" 5 "t")]).2.1
      (by decide) (by decide),
   (c6_exit_status default_config
      [({ url := "http://y" }, fun _ => AttemptOutcome.failure "timeout" "t")]).2.2.1
      ⟨failure_result "http://y" "http://y" "timeout" "t", by decide, rfl⟩,
   (c6_exit_status default_config []).2.2.2 (by decide)⟩
